import Mathlib

/-!
Shallow embedding of the Task Orchestration & Session History core of
`msa_gradio` (`app.py`, `init_db.py`).

The Python operations `run_alignment`, `show_history` and `save_to_db` are
translated into pure Lean functions.  Effects of the outside world (uuid
minting, timestamps, filesystem writes/reads, the external aligner process,
sqlite success/failure) are supplied through an explicit environment record
`Env`, and the observable effects (files written to the staging area,
external commands invoked, database rows appended, mutations of the Gradio
session-state dictionary) are returned explicitly in the result records.
-/

namespace MsaGradio

/-- The Gradio session state: a Python `dict` mapping string keys to string
values, modelled as an association list with unique keys in practice.
`dictGet` is Python `d.get(k)` (first matching key). -/
abbrev Dict := List (String × String)

/-- Python `d.get(k)`: the value of the first matching key, else `None`. -/
def dictGet : Dict → String → Option String
  | [], _ => none
  | kv :: rest, k => if kv.1 == k then some kv.2 else dictGet rest k

/-- Python `d[k] = v`: overwrite the (first) binding of `k`, or append a new
binding when `k` is absent. -/
def dictSet : Dict → String → String → Dict
  | [], k, v => [(k, v)]
  | kv :: rest, k, v => if kv.1 == k then (k, v) :: rest else kv :: dictSet rest k v

/-- One row of the sqlite `history` table (`init_db.py`): auto-increment
`id`, session id, unique task id, tool, input path, output path, timestamp. -/
structure HistoryRecord where
  id : Nat
  session_id : String
  task_id : String
  tool : String
  input_file : String
  output_file : String
  timestamp : String
deriving DecidableEq

/-- The `history` table: rows in insertion order, plus the next
auto-increment id. -/
structure DB where
  records : List HistoryRecord
  nextId : Nat
deriving DecidableEq

/-- `save_to_db` (app.py lines 20-32): insert one row inside a try/except;
a `sqlite3.Error` (modelled by `dbOk = false`) is caught and only logged,
leaving the table unchanged. -/
def save_to_db (db : DB) (dbOk : Bool)
    (session_id task_id tool input_file output_file timestamp : String) : DB :=
  if dbOk then
    { records := db.records ++
        [{ id := db.nextId, session_id := session_id, task_id := task_id,
           tool := tool, input_file := input_file, output_file := output_file,
           timestamp := timestamp }],
      nextId := db.nextId + 1 }
  else db

/-- The uploaded file object; the orchestrator only tests
`hasattr(fasta_file_obj, 'name')` before copying its bytes. -/
structure FileObj where
  hasName : Bool
deriving DecidableEq

/-- Outcome of the `subprocess.run` call for the chosen tool:
normal exit, `FileNotFoundError` (executable missing),
`CalledProcessError` (non-zero exit, with captured `stderr`/`stdout`,
`none` when the stream was not captured), or any other exception. -/
inductive ToolOutcome where
  | ok
  | fileNotFound
  | calledProcessError (returncode : Int) (stderrText stdoutText : Option String)
  | unexpected (msg : String)
deriving DecidableEq

/-- The ambient world of one `run_alignment` call: the uuids and timestamps
that would be minted, and the outcome of each external operation. -/
structure Env where
  freshSessionId : String
  freshTaskId : String
  timestampStr : String
  isoTimestamp : String
  stageOk : Bool
  stageErrMsg : String
  toolOutcome : ToolOutcome
  readOk : Bool
  readText : String
  dbOk : Bool
deriving DecidableEq

/-- The triple `run_alignment` returns to Gradio:
`(result_text, file_download_update, status_message)`.  A `none` download
models `None`; `some p` models `gr.update(value=p)`. -/
structure RunResult where
  resultText : String
  download : Option String
  status : String
deriving DecidableEq

/-- Full observable outcome of one `run_alignment` call: the returned
triple, the session-state dictionary after the call, the `history` table
after the call, the paths written to the staging area, the commands handed
to `subprocess.run`, and how many times `save_to_db` was called. -/
structure RunOut where
  result : RunResult
  state : Dict
  db : DB
  uploads : List String
  invocations : List (List String)
  saveCalls : Nat
deriving DecidableEq

/-- Python `a or b` on optional strings (`e.stderr or e.stdout or default`):
`None` and the empty string are falsy. -/
def pyOrOpt (a : Option String) (b : String) : String :=
  match a with
  | some s => if s == "" then b else s
  | none => b

/-- Session resolution inlined in `run_alignment` (app.py lines 48-55):
return the session id already in the state dictionary, or mint a fresh one
and store it under key `'session_id'`. -/
def resolve_or_create (st : Dict) (fresh : String) : String × Dict :=
  match dictGet st "session_id" with
  | some sid => (sid, st)
  | none => (fresh, dictSet st "session_id" fresh)

/-- `command = ["mafft", "--quiet", input_path]` (app.py line 82). -/
def mafft_command (inPath : String) : List String :=
  ["mafft", "--quiet", inPath]

/-- `command = ["muscle", "-in", input_path, "-out", output_path]`
(app.py line 89). -/
def muscle_command (inPath outPath : String) : List String :=
  ["muscle", "-in", inPath, "-out", outPath]

/-- The shared try/except around the tool invocation and what follows it
(app.py lines 79-127, for a supported tool with command `cmd`):
`FileNotFoundError`, `CalledProcessError` and unexpected exceptions each
return a failure triple; on success the output file is read (its own
failure return), `save_to_db` is called once, and the completed triple is
returned. -/
def run_tool_phase (tool : String) (cmd : List String)
    (session_id task_id inPath outPath : String)
    (st1 : Dict) (env : Env) (db : DB) : RunOut :=
  match env.toolOutcome with
  | .fileNotFound =>
      { result := ⟨"错误: 命令 '" ++ cmd.headD "" ++ "' 未找到。请确保 " ++ tool ++
                    " 已安装并已添加到系统 PATH。", none, "错误：" ++ tool ++ " 未找到"⟩,
        state := st1, db := db, uploads := [inPath], invocations := [cmd], saveCalls := 0 }
  | .calledProcessError rc stderrText stdoutText =>
      { result := ⟨tool ++ " 运行时出错。\n错误信息:\n" ++
                    pyOrOpt stderrText (pyOrOpt stdoutText ("Return code: " ++ toString rc)),
                   none, "错误：" ++ tool ++ " 运行失败"⟩,
        state := st1, db := db, uploads := [inPath], invocations := [cmd], saveCalls := 0 }
  | .unexpected msg =>
      { result := ⟨"比对过程中发生意外错误: " ++ msg, none, "错误：比对异常"⟩,
        state := st1, db := db, uploads := [inPath], invocations := [cmd], saveCalls := 0 }
  | .ok =>
      if !env.readOk then
        { result := ⟨"比对成功，但读取结果文件时出错。", none, "错误：结果读取失败"⟩,
          state := st1, db := db, uploads := [inPath], invocations := [cmd], saveCalls := 0 }
      else
        { result := ⟨env.readText, some outPath, "比对完成 (" ++ tool ++ ")。"⟩,
          state := st1,
          db := save_to_db db env.dbOk session_id task_id tool inPath outPath env.isoTimestamp,
          uploads := [inPath], invocations := [cmd], saveCalls := 1 }

/-- `run_alignment` (app.py lines 36-127).  `current_session_state = none`
models receiving `None` (replaced by `{}`).  The order of steps follows the
source: missing-file rejection, session resolution, task id and path
allocation, staging (with its two failure modes: no `name` attribute, or an
I/O error), tool dispatch (`MAFFT` / `MUSCLE` / invalid), and the phase
after invocation. -/
def run_alignment (fasta_file_obj : Option FileObj) (tool : String)
    (current_session_state : Option Dict) (env : Env) (db : DB) : RunOut :=
  let st0 := current_session_state.getD []
  match fasta_file_obj with
  | none =>
      { result := ⟨"请上传FASTA文件。", none, "错误：未上传文件"⟩,
        state := st0, db := db, uploads := [], invocations := [], saveCalls := 0 }
  | some fobj =>
      let resolved := resolve_or_create st0 env.freshSessionId
      let session_id := resolved.1
      let st1 := resolved.2
      let task_id := env.freshTaskId
      let inPath := "uploads/input_" ++ task_id ++ "_" ++ env.timestampStr ++ ".fasta"
      let outPath := "results/result_" ++ task_id ++ "_" ++ env.timestampStr ++ ".aln"
      if !fobj.hasName then
        { result := ⟨"处理上传文件时出错: Invalid file object received.", none,
                     "错误：文件保存失败"⟩,
          state := st1, db := db, uploads := [], invocations := [], saveCalls := 0 }
      else if !env.stageOk then
        { result := ⟨"处理上传文件时出错: " ++ env.stageErrMsg, none, "错误：文件保存失败"⟩,
          state := st1, db := db, uploads := [], invocations := [], saveCalls := 0 }
      else if tool == "MAFFT" then
        run_tool_phase tool (mafft_command inPath) session_id task_id inPath outPath st1 env db
      else if tool == "MUSCLE" then
        run_tool_phase tool (muscle_command inPath outPath) session_id task_id inPath outPath
          st1 env db
      else
        { result := ⟨"无效的比对工具选择。", none, "错误：无效工具"⟩,
          state := st1, db := db, uploads := [inPath], invocations := [], saveCalls := 0 }

/-- The staged input path `uploads/input_{task_id}_{timestamp}.fasta`
allocated by `run_alignment` for this environment. -/
def inputPathOf (env : Env) : String :=
  "uploads/input_" ++ env.freshTaskId ++ "_" ++ env.timestampStr ++ ".fasta"

/-- The output path `results/result_{task_id}_{timestamp}.aln` allocated by
`run_alignment` for this environment. -/
def outputPathOf (env : Env) : String :=
  "results/result_" ++ env.freshTaskId ++ "_" ++ env.timestampStr ++ ".aln"

/-- Does this submission reach `Completed`?  True exactly on the one source
path that falls through every failure return of `run_alignment`: a file
object with a `name`, staging succeeds, the tool is `MAFFT` or `MUSCLE`,
the process exits normally, and the output file is readable. -/
def completes (fasta_file_obj : Option FileObj) (tool : String) (env : Env) : Bool :=
  (match fasta_file_obj with
   | some fobj => fobj.hasName
   | none => false)
  && env.stageOk
  && (tool == "MAFFT" || tool == "MUSCLE")
  && (match env.toolOutcome with
      | .ok => true
      | _ => false)
  && env.readOk

/-- Fuel-driven worker for SQL `REPLACE`: replace every occurrence of `pat`
(non-empty) in the character list, scanning left to right. -/
def replaceFuel (pat rep : List Char) : Nat → List Char → List Char
  | 0, l => l
  | _ + 1, [] => []
  | fuel + 1, c :: cs =>
      if pat.isPrefixOf (c :: cs) then
        rep ++ replaceFuel pat rep fuel (List.drop pat.length (c :: cs))
      else
        c :: replaceFuel pat rep fuel cs

/-- SQLite `REPLACE(s, pat, rep)`: every occurrence of `pat` in `s` is
replaced by `rep`; an empty pattern leaves `s` unchanged. -/
def sqlReplace (s pat rep : String) : String :=
  if pat.data.isEmpty then s
  else ⟨replaceFuel pat.data rep.data s.data.length s.data⟩

/-- Insert a record into a list kept in descending `id` order. -/
def insertDescById (r : HistoryRecord) : List HistoryRecord → List HistoryRecord
  | [] => [r]
  | x :: xs => if x.id ≤ r.id then r :: x :: xs else x :: insertDescById r xs

/-- Sort records by `id` descending: the `ORDER BY id DESC` of the history
query. -/
def sortByIdDesc : List HistoryRecord → List HistoryRecord
  | [] => []
  | x :: xs => insertDescById x (sortByIdDesc xs)

/-- One presented row of the history query
(`SELECT timestamp, tool, REPLACE(input_file, 'uploads/', ''),
REPLACE(output_file, 'results/', '')`). -/
def renderRow (r : HistoryRecord) : String × String × String × String :=
  (r.timestamp, r.tool,
   sqlReplace r.input_file "uploads/" "",
   sqlReplace r.output_file "results/" "")

/-- The history query of `show_history` (app.py lines 148-156):
`WHERE session_id = ? ORDER BY id DESC LIMIT 20`, projected to the four
presented columns. -/
def queryRows (db : DB) (sid : String) : List (String × String × String × String) :=
  (List.take 20 (sortByIdDesc (db.records.filter (fun r => r.session_id == sid)))).map
    renderRow

/-- Fate of the sqlite read in `show_history`: success, or a
`sqlite3.Error` with message `dbErrMsg`. -/
structure HistEnv where
  dbReadOk : Bool
  dbErrMsg : String
deriving DecidableEq

/-- Observable outcome of one `show_history` call: the returned text, the
session-state dictionary after the call, and whether the History Store was
opened at all. -/
structure HistOut where
  text : String
  state : Dict
  touchedStore : Bool
deriving DecidableEq

/-- Python `session_id[-6:]`: the last six characters (or all of them when
shorter). -/
def lastSix (s : String) : String :=
  ⟨s.data.drop (s.data.length - 6)⟩

/-- The rendered history table: header line, fifty dashes, then one
tab-separated line per row, newest first (app.py lines 166-167). -/
def renderTable (rows : List (String × String × String × String)) : String :=
  "时间\t工具\t输入文件\t输出文件\n" ++ ⟨List.replicate 50 '-'⟩ ++ "\n" ++
    String.intercalate "\n"
      (rows.map (fun row => row.1 ++ "\t" ++ row.2.1 ++ "\t" ++ row.2.2.1 ++ "\t" ++ row.2.2.2))

/-- `show_history` (app.py lines 131-168).  A `None` state is replaced by
`{}`; a missing or empty (`if not session_id`) session id returns the
no-history message without opening the store; otherwise the store is read
(read failure returns an error message), an empty row set yields the
per-session no-history message, and otherwise the formatted table. -/
def show_history (current_session_state : Option Dict) (henv : HistEnv) (db : DB) : HistOut :=
  let st0 := current_session_state.getD []
  match dictGet st0 "session_id" with
  | none => ⟨"当前会话没有历史记录。", st0, false⟩
  | some sid =>
      if sid == "" then ⟨"当前会话没有历史记录。", st0, false⟩
      else if !henv.dbReadOk then
        ⟨"无法加载历史记录: " ++ henv.dbErrMsg, st0, true⟩
      else
        let rows := queryRows db sid
        if rows.isEmpty then
          ⟨"当前会话 (ID: ..." ++ lastSix sid ++ ") 没有历史记录。", st0, true⟩
        else
          ⟨renderTable rows, st0, true⟩

/-- Setting a key makes it readable: `d[k] = v` followed by `d.get(k)`
yields `v`. -/
theorem dictGet_dictSet_self (d : Dict) (k v : String) :
    dictGet (dictSet d k v) k = some v := by
  induction d with
  | nil => simp [dictGet, dictSet]
  | cons kv rest ih =>
    by_cases h : kv.1 = k
    · simp [dictGet, dictSet, h]
    · have hb : (kv.1 == k) = false := by simp [h]
      simp [dictGet, dictSet, hb, ih]

/-- Setting a key leaves every other key unchanged. -/
theorem dictGet_dictSet_ne (d : Dict) (k k' v : String) (h : k' ≠ k) :
    dictGet (dictSet d k v) k' = dictGet d k' := by
  have hkk : (k == k') = false := by
    simp
    exact fun hh => h hh.symm
  induction d with
  | nil => simp [dictGet, dictSet, hkk]
  | cons kv rest ih =>
    by_cases hk : kv.1 = k
    · simp [dictGet, dictSet, hk, hkk]
    · have hb : (kv.1 == k) = false := by simp [hk]
      simp [dictGet, dictSet, hb, ih]

/-- Inserting a record whose `id` is smaller than every `id` in the list
pushes it to the back. -/
theorem insertDescById_of_forall_lt (x : HistoryRecord) (l : List HistoryRecord)
    (h : ∀ y ∈ l, x.id < y.id) : insertDescById x l = l ++ [x] := by
  induction l with
  | nil => rfl
  | cons y ys ih =>
    have hy := h y (by simp)
    have hle : ¬ (y.id ≤ x.id) := by omega
    simp [insertDescById, hle, ih (fun z hz => h z (by simp [hz]))]

/-- On a list whose `id`s strictly increase in list order (the shape every
sequence of `save_to_db` appends produces), sorting by `id` descending is
exactly list reversal. -/
theorem sortByIdDesc_of_pairwise (l : List HistoryRecord)
    (h : l.Pairwise (fun a b => a.id < b.id)) : sortByIdDesc l = l.reverse := by
  induction l with
  | nil => rfl
  | cons x xs ih =>
    rw [List.pairwise_cons] at h
    simp only [sortByIdDesc, ih h.2]
    rw [insertDescById_of_forall_lt x xs.reverse
      (fun y hy => h.1 y (List.mem_reverse.mp hy))]
    simp

/-- `run_alignment` returns the state dictionary produced by session
resolution (the input dictionary untouched when no file was supplied). -/
theorem run_alignment_state_eq (f : Option FileObj) (tool : String) (o : Option Dict)
    (env : Env) (db : DB) :
    (run_alignment f tool o env db).state
      = match f with
        | none => o.getD []
        | some _ => (resolve_or_create (o.getD []) env.freshSessionId).2 := by
  unfold run_alignment run_tool_phase
  cases f with
  | none => rfl
  | some fo =>
    cases hn : fo.hasName <;> cases hs : env.stageOk <;>
      cases hM : tool == "MAFFT" <;> cases hU : tool == "MUSCLE" <;>
      cases ht : env.toolOutcome <;> cases hr : env.readOk <;>
      simp_all

/-- `show_history` hands back the state dictionary it received. -/
theorem show_history_state_eq (o : Option Dict) (henv : HistEnv) (db : DB) :
    (show_history o henv db).state = o.getD [] := by
  unfold show_history
  dsimp only
  split
  · rfl
  · split
    · rfl
    · split
      · rfl
      · split <;> rfl

/-- A fully successful environment used to instantiate theorems. -/
def sampleEnv : Env :=
  { freshSessionId := "S1", freshTaskId := "T1", timestampStr := "20250101_000000",
    isoTimestamp := "2025-01-01T00:00:00", stageOk := true, stageErrMsg := "disk full",
    toolOutcome := .ok, readOk := true, readText := "ALN", dbOk := true }

/-- `sampleEnv` with the history insert failing with a `sqlite3.Error`. -/
def dbFailEnv : Env :=
  { sampleEnv with dbOk := false }

/-- `sampleEnv` with the tool exiting non-zero, stderr `"X"`, stdout not
captured. -/
def toolFailEnv : Env :=
  { sampleEnv with toolOutcome := .calledProcessError 1 (some "X") none }

/-- An empty `history` table. -/
def sampleDb : DB :=
  { records := [], nextId := 1 }

/-- A `history` table holding three completed tasks, two for session `A`
(inserted first and third) and one for session `B`. -/
def sampleHistDb : DB :=
  { records := [⟨1, "A", "t1", "MAFFT", "uploads/i1", "results/o1", "ts1"⟩,
                ⟨2, "B", "t2", "MAFFT", "uploads/i2", "results/o2", "ts2"⟩,
                ⟨3, "A", "t3", "MUSCLE", "uploads/i3", "results/o3", "ts3"⟩],
    nextId := 4 }

/-- C4: a submission with no file object is rejected immediately with the
no-file result text and status, the session dictionary is returned exactly
as received (no session identity minted), the history table is untouched,
nothing is staged, no process is invoked, and `save_to_db` is never
called.  No task identity is consumed: the returned record is independent
of `env.freshTaskId`. -/
theorem no_file_rejected (tool : String) (o : Option Dict) (env : Env) (db : DB) :
    run_alignment none tool o env db =
      { result := ⟨"请上传FASTA文件。", none, "错误：未上传文件"⟩,
        state := o.getD [], db := db, uploads := [], invocations := [], saveCalls := 0 } :=
  rfl

/-- C5: session resolution is idempotent — resolving the context returned
by a first resolution yields the same session identity and leaves the
context unchanged, and a context already carrying a session identity is
returned unchanged with that identity. -/
theorem session_resolution_idempotent (st : Dict) (f1 f2 : String) :
    (resolve_or_create (resolve_or_create st f1).2 f2).1 = (resolve_or_create st f1).1
    ∧ (resolve_or_create (resolve_or_create st f1).2 f2).2 = (resolve_or_create st f1).2
    ∧ (∀ sid, dictGet st "session_id" = some sid → resolve_or_create st f1 = (sid, st)) := by
  unfold resolve_or_create
  cases hd : dictGet st "session_id" with
  | some sid => simp [hd]
  | none => simp [hd, dictGet_dictSet_self]

/-- Witness for C5 at a context that already carries a session identity. -/
theorem session_resolution_idempotent_witness :
    resolve_or_create [("session_id", "ABC")] "S9" = ("ABC", [("session_id", "ABC")]) :=
  (session_resolution_idempotent [("session_id", "ABC")] "S9" "S8").2.2 "ABC" (by decide)

/-- C7: when the supplied context carries no session identity,
`show_history` returns the no-history message, hands the context back
unchanged (no identity minted), and never opens the History Store. -/
theorem show_history_no_session (o : Option Dict) (henv : HistEnv) (db : DB)
    (h : dictGet (o.getD []) "session_id" = none) :
    show_history o henv db = ⟨"当前会话没有历史记录。", o.getD [], false⟩ := by
  unfold show_history
  simp [h]

/-- Witness for C7 on a context with an unrelated key only. -/
theorem show_history_no_session_witness :
    show_history (some [("other", "v")]) ⟨true, ""⟩ sampleDb
      = ⟨"当前会话没有历史记录。", [("other", "v")], false⟩ :=
  show_history_no_session (some [("other", "v")]) ⟨true, ""⟩ sampleDb (by decide)

/-- C9: the downloadable artifact reference is `some` (the produced output
path) exactly on the completed path, and `none` on every rejection and
failure return. -/
theorem download_iff_completed (f : Option FileObj) (tool : String) (o : Option Dict)
    (env : Env) (db : DB) :
    (completes f tool env = true →
      (run_alignment f tool o env db).result.download = some (outputPathOf env))
    ∧ (completes f tool env = false →
      (run_alignment f tool o env db).result.download = none) := by
  unfold run_alignment run_tool_phase completes outputPathOf
  cases f with
  | none => simp
  | some fo =>
    cases hn : fo.hasName <;> cases hs : env.stageOk <;>
      cases hM : tool == "MAFFT" <;> cases hU : tool == "MUSCLE" <;>
      cases ht : env.toolOutcome <;> cases hr : env.readOk <;>
      simp_all

/-- Witness for C9 on a completing MAFFT submission. -/
theorem download_iff_completed_witness :
    (run_alignment (some ⟨true⟩) "MAFFT" (some []) sampleEnv sampleDb).result.download
      = some (outputPathOf sampleEnv) :=
  (download_iff_completed (some ⟨true⟩) "MAFFT" (some []) sampleEnv sampleDb).1 (by decide)

/-- C3: on the completed path the returned triple is exactly the completed
result — the result text read from the output artifact, the output path,
and the completion status — independently of whether the history insert
succeeds; and when the insert fails the table is simply left unchanged
(the failure is only logged). -/
theorem persistence_failure_not_downgraded (f : Option FileObj) (tool : String)
    (o : Option Dict) (env : Env) (db : DB) (h : completes f tool env = true) :
    (run_alignment f tool o env db).result
      = ⟨env.readText, some (outputPathOf env), "比对完成 (" ++ tool ++ ")。"⟩
    ∧ (env.dbOk = false → (run_alignment f tool o env db).db = db) := by
  unfold completes at h
  unfold run_alignment run_tool_phase outputPathOf save_to_db
  cases f with
  | none => simp at h
  | some fo =>
    cases hn : fo.hasName <;> cases hs : env.stageOk <;>
      cases hM : tool == "MAFFT" <;> cases hU : tool == "MUSCLE" <;>
      cases ht : env.toolOutcome <;> cases hr : env.readOk <;>
      simp_all

/-- Witness for C3: with the history insert failing, the caller still sees
the full completed result and the table is unchanged. -/
theorem persistence_failure_not_downgraded_witness :
    (run_alignment (some ⟨true⟩) "MAFFT" (some []) dbFailEnv sampleDb).result
      = ⟨dbFailEnv.readText, some (outputPathOf dbFailEnv), "比对完成 (" ++ "MAFFT" ++ ")。"⟩
    ∧ (run_alignment (some ⟨true⟩) "MAFFT" (some []) dbFailEnv sampleDb).db = sampleDb :=
  ⟨(persistence_failure_not_downgraded (some ⟨true⟩) "MAFFT" (some []) dbFailEnv sampleDb
      (by decide)).1,
   (persistence_failure_not_downgraded (some ⟨true⟩) "MAFFT" (some []) dbFailEnv sampleDb
      (by decide)).2 (by decide)⟩

/-- C8: when the external tool exits non-zero, the task fails with the
tool-failure status, the returned detail is stderr, falling back to stdout
and then to the exit code (Python truthiness: a missing or empty stream is
skipped), nothing is written to history, and in particular a non-empty
captured stderr is surfaced verbatim as the diagnostic suffix. -/
theorem tool_failure_surfaces_diagnostics (fo : FileObj) (tool : String) (o : Option Dict)
    (env : Env) (db : DB) (rc : Int) (stderrText stdoutText : Option String)
    (hn : fo.hasName = true) (hs : env.stageOk = true)
    (ht : tool = "MAFFT" ∨ tool = "MUSCLE")
    (he : env.toolOutcome = .calledProcessError rc stderrText stdoutText) :
    (run_alignment (some fo) tool o env db).result.resultText
      = tool ++ " 运行时出错。\n错误信息:\n" ++
          pyOrOpt stderrText (pyOrOpt stdoutText ("Return code: " ++ toString rc))
    ∧ (run_alignment (some fo) tool o env db).result.status = "错误：" ++ tool ++ " 运行失败"
    ∧ (run_alignment (some fo) tool o env db).db = db
    ∧ (run_alignment (some fo) tool o env db).saveCalls = 0
    ∧ (∀ s, stderrText = some s → s ≠ "" →
        (run_alignment (some fo) tool o env db).result.resultText
          = tool ++ " 运行时出错。\n错误信息:\n" ++ s) := by
  have hmain : (run_alignment (some fo) tool o env db).result.resultText
      = tool ++ " 运行时出错。\n错误信息:\n" ++
          pyOrOpt stderrText (pyOrOpt stdoutText ("Return code: " ++ toString rc))
    ∧ (run_alignment (some fo) tool o env db).result.status = "错误：" ++ tool ++ " 运行失败"
    ∧ (run_alignment (some fo) tool o env db).db = db
    ∧ (run_alignment (some fo) tool o env db).saveCalls = 0 := by
    unfold run_alignment run_tool_phase
    rcases ht with rfl | rfl <;> simp [hn, hs, he]
  refine ⟨hmain.1, hmain.2.1, hmain.2.2.1, hmain.2.2.2, ?_⟩
  intro s hstderr hne
  rw [hmain.1, hstderr]
  have : (s == "") = false := by simpa using hne
  simp [pyOrOpt, this]

/-- Witness for C8: a MUSCLE run exiting 1 with stderr `"X"` surfaces `X`
verbatim and appends nothing. -/
theorem tool_failure_surfaces_diagnostics_witness :
    (run_alignment (some ⟨true⟩) "MUSCLE" (some []) toolFailEnv sampleDb).result.resultText
      = "MUSCLE" ++ " 运行时出错。\n错误信息:\n" ++ "X"
    ∧ (run_alignment (some ⟨true⟩) "MUSCLE" (some []) toolFailEnv sampleDb).db = sampleDb :=
  ⟨(tool_failure_surfaces_diagnostics ⟨true⟩ "MUSCLE" (some []) toolFailEnv sampleDb
      1 (some "X") none rfl rfl (Or.inr rfl) rfl).2.2.2.2 "X" rfl (by decide),
   (tool_failure_surfaces_diagnostics ⟨true⟩ "MUSCLE" (some []) toolFailEnv sampleDb
      1 (some "X") none rfl rfl (Or.inr rfl) rfl).2.2.1⟩

/-- C1: a history record is appended iff the task completes — on every
non-completing path `save_to_db` is never called and the table is returned
untouched; on the completing path `save_to_db` is called exactly once and
(when the insert succeeds) appends exactly one record carrying the
resolved session identity, the task identity, the tool and the two
artifact paths. -/
theorem history_appended_iff_completed (f : Option FileObj) (tool : String) (o : Option Dict)
    (env : Env) (db : DB) :
    (completes f tool env = false →
      (run_alignment f tool o env db).saveCalls = 0
      ∧ (run_alignment f tool o env db).db = db)
    ∧ (completes f tool env = true →
      (run_alignment f tool o env db).saveCalls = 1
      ∧ (env.dbOk = true →
          (run_alignment f tool o env db).db.records
            = db.records ++
              [{ id := db.nextId,
                 session_id := (resolve_or_create (o.getD []) env.freshSessionId).1,
                 task_id := env.freshTaskId, tool := tool,
                 input_file := inputPathOf env, output_file := outputPathOf env,
                 timestamp := env.isoTimestamp }])) := by
  unfold run_alignment run_tool_phase completes save_to_db inputPathOf outputPathOf
  cases f with
  | none => simp
  | some fo =>
    cases hn : fo.hasName <;> cases hs : env.stageOk <;>
      cases hM : tool == "MAFFT" <;> cases hU : tool == "MUSCLE" <;>
      cases ht : env.toolOutcome <;> cases hr : env.readOk <;> cases hd : env.dbOk <;>
      simp_all

/-- Witness for C1 on a completing MAFFT submission over an empty table. -/
theorem history_appended_iff_completed_witness :
    (run_alignment (some ⟨true⟩) "MAFFT" (some []) sampleEnv sampleDb).saveCalls = 1
    ∧ (run_alignment (some ⟨true⟩) "MAFFT" (some []) sampleEnv sampleDb).db.records
        = sampleDb.records ++
          [{ id := sampleDb.nextId,
             session_id := (resolve_or_create ((some ([] : Dict)).getD []) sampleEnv.freshSessionId).1,
             task_id := sampleEnv.freshTaskId, tool := "MAFFT",
             input_file := inputPathOf sampleEnv, output_file := outputPathOf sampleEnv,
             timestamp := sampleEnv.isoTimestamp }] :=
  ⟨((history_appended_iff_completed (some ⟨true⟩) "MAFFT" (some []) sampleEnv sampleDb).2
      (by decide)).1,
   ((history_appended_iff_completed (some ⟨true⟩) "MAFFT" (some []) sampleEnv sampleDb).2
      (by decide)).2 (by decide)⟩

/-- C6: on a table whose row ids strictly increase in insertion order (the
shape every sequence of inserts produces under `AUTOINCREMENT`), the
history query returns exactly the rows of the requested session — never
another session's — in reverse insertion order truncated to the 20 most
recent; when the session has at most 20 rows that is all of them, newest
to oldest. -/
theorem show_history_query_isolated_ordered (db : DB) (sid : String)
    (h : db.records.Pairwise (fun a b => a.id < b.id)) :
    queryRows db sid
      = (((db.records.filter (fun r => r.session_id == sid)).reverse).take 20).map renderRow
    ∧ ((db.records.filter (fun r => r.session_id == sid)).length ≤ 20 →
        queryRows db sid
          = ((db.records.filter (fun r => r.session_id == sid)).reverse).map renderRow) := by
  have hf : (db.records.filter (fun r => r.session_id == sid)).Pairwise
      (fun a b => a.id < b.id) :=
    List.Pairwise.sublist (List.filter_sublist _) h
  have hsort := sortByIdDesc_of_pairwise _ hf
  constructor
  · simp [queryRows, hsort]
  · intro hlen
    have : ((db.records.filter (fun r => r.session_id == sid)).reverse).take 20
        = (db.records.filter (fun r => r.session_id == sid)).reverse := by
      apply List.take_of_length_le
      simpa using hlen
    simp [queryRows, hsort, this]

/-- Witness for C6 on a three-row table with two sessions: session `A` gets
its two rows newest first, session `B`'s row never appears. -/
theorem show_history_query_isolated_ordered_witness :
    queryRows sampleHistDb "A"
      = (((sampleHistDb.records.filter (fun r => r.session_id == "A")).reverse).take 20).map
          renderRow
    ∧ queryRows sampleHistDb "A" = [("ts3", "MUSCLE", "i3", "o3"), ("ts1", "MAFFT", "i1", "o1")] :=
  ⟨(show_history_query_isolated_ordered sampleHistDb "A" (by decide)).1, by decide⟩

/-- C2 counterexample: a submission with a valid file and the unsupported
tool `"CLUSTAL"` is rejected with the invalid-tool status, yet the input
artifact has already been written to the staging area at a path embedding
the freshly allocated task identity — the claim that no input artifact is
written and no task identity allocated is false on the code, which stages
before it dispatches on the tool. -/
theorem invalid_tool_still_stages_cex :
    (run_alignment (some ⟨true⟩) "CLUSTAL" (some []) sampleEnv sampleDb).result.status
        = "错误：无效工具"
    ∧ (run_alignment (some ⟨true⟩) "CLUSTAL" (some []) sampleEnv sampleDb).uploads
        = ["uploads/input_T1_20250101_000000.fasta"] := by
  decide

/-- C2 (amended): an unsupported tool is rejected with the invalid-tool
result after staging — no external process is started, no history record
is written, `save_to_db` is never called, but the input artifact has been
staged (at the path embedding the allocated task identity). -/
theorem invalid_tool_rejected (fo : FileObj) (tool : String) (o : Option Dict)
    (env : Env) (db : DB) (hn : fo.hasName = true) (hs : env.stageOk = true)
    (h1 : tool ≠ "MAFFT") (h2 : tool ≠ "MUSCLE") :
    (run_alignment (some fo) tool o env db).result
        = ⟨"无效的比对工具选择。", none, "错误：无效工具"⟩
    ∧ (run_alignment (some fo) tool o env db).invocations = []
    ∧ (run_alignment (some fo) tool o env db).db = db
    ∧ (run_alignment (some fo) tool o env db).saveCalls = 0
    ∧ (run_alignment (some fo) tool o env db).uploads = [inputPathOf env] := by
  unfold run_alignment inputPathOf
  simp [hn, hs, h1, h2]

/-- Witness for C2's amended statement at the counterexample's input. -/
theorem invalid_tool_rejected_witness :
    (run_alignment (some ⟨true⟩) "CLUSTAL" (some []) sampleEnv sampleDb).result
        = ⟨"无效的比对工具选择。", none, "错误：无效工具"⟩
    ∧ (run_alignment (some ⟨true⟩) "CLUSTAL" (some []) sampleEnv sampleDb).invocations = [] :=
  ⟨(invalid_tool_rejected ⟨true⟩ "CLUSTAL" (some []) sampleEnv sampleDb rfl rfl
      (by decide) (by decide)).1,
   (invalid_tool_rejected ⟨true⟩ "CLUSTAL" (some []) sampleEnv sampleDb rfl rfl
      (by decide) (by decide)).2.1⟩

/-- C10: neither operation clobbers an existing session identity —
`run_alignment` leaves every key other than `'session_id'` unchanged,
returns the context verbatim whenever a session identity was already
present, and `show_history` returns the context verbatim always. -/
theorem context_only_session_id_written (f : Option FileObj) (tool : String) (st : Dict)
    (env : Env) (db : DB) (henv : HistEnv) :
    (∀ k, k ≠ "session_id" →
      dictGet (run_alignment f tool (some st) env db).state k = dictGet st k)
    ∧ (∀ sid, dictGet st "session_id" = some sid →
        (run_alignment f tool (some st) env db).state = st)
    ∧ (show_history (some st) henv db).state = st := by
  have hrun := run_alignment_state_eq f tool (some st) env db
  refine ⟨?_, ?_, show_history_state_eq (some st) henv db⟩
  · intro k hk
    cases f with
    | none => simp [hrun]
    | some fo =>
      cases hd : dictGet st "session_id" with
      | some sid => simp [hrun, resolve_or_create, hd]
      | none =>
        simp [hrun, resolve_or_create, hd,
          dictGet_dictSet_ne st "session_id" k env.freshSessionId hk]
  · intro sid hsid
    cases f with
    | none => simp [hrun]
    | some fo => simp [hrun, resolve_or_create, hsid]

/-- Witness for C10: a completing run leaves an unrelated key readable and
unchanged. -/
theorem context_only_session_id_written_witness :
    dictGet (run_alignment (some ⟨true⟩) "MAFFT" (some [("lang", "zh")]) sampleEnv
        sampleDb).state "lang"
      = dictGet [("lang", "zh")] "lang" :=
  (context_only_session_id_written (some ⟨true⟩) "MAFFT" [("lang", "zh")] sampleEnv sampleDb
      ⟨true, ""⟩).1 "lang" (by decide)

end MsaGradio
